import Mathlib

/-!
Shallow embedding of the nestegg 6502 emulator core
(src/src/lib.rs, src/src/instruction.rs,
src/src/instruction/operand_mode.rs, src/src/instruction/operation.rs).

Machine integers are modelled as Nat with wrapping made explicit
(% 256 for u8, % 65536 for u16, at exactly the points where the Rust
arithmetic wraps or masks).  Rust Result values become sum types; Vec
indexing that can panic becomes Option (none = panic).  Functions that
take &mut self and return Result<(), &str> become functions returning
the possibly-mutated state together with the outcome (ExecResult), since
a Rust caller of such a function keeps the mutations made before an Err
return.  step takes self by value, so its error case returns no state
(StepResult.err carries only the message), mirroring the move semantics.
-/

namespace Nestegg

/-- src/src/instruction/operand_mode.rs: the 12 addressing modes. -/
inductive OperandMode where
  | Absolute
  | AbsoluteX
  | AbsoluteY
  | Accumulator
  | Immediate
  | Implied
  | Indirect
  | IndirectX
  | IndirectY
  | ZeroPage
  | ZeroPageX
  | ZeroPageY
deriving DecidableEq, Repr

/-- src/src/instruction/operation.rs: the 56 mnemonics. -/
inductive Operation where
  | ADC | AND | ASL | BCC | BCS | BEQ | BIT | BMI
  | BNE | BPL | BRK | BVC | BVS | CLC | CLD | CLI
  | CLV | CMP | CPX | CPY | DEC | DEX | DEY | EOR
  | INC | INX | INY | JMP | JSR | LDA | LDX | LDY
  | LSR | NOP | ORA | PHA | PHP | PLA | PLP | ROL
  | ROR | RTI | RTS | SBC | SEC | SED | SEI | STA
  | STX | STY | TAX | TAY | TSX | TXA | TXS | TYA
deriving DecidableEq, Repr

/-- src/src/instruction.rs: `Instruction(pub OperandMode, pub Operation)`. -/
structure Instruction where
  mode : OperandMode
  operation : Operation
deriving DecidableEq, Repr

/-- src/src/instruction.rs: the static 151-entry opcode table. -/
def INSTRUCTION_TUPLES : List (Nat × Instruction) := [
  (0x69, Instruction.mk OperandMode.Immediate Operation.ADC),
  (0x65, Instruction.mk OperandMode.ZeroPage Operation.ADC),
  (0x75, Instruction.mk OperandMode.ZeroPageX Operation.ADC),
  (0x6D, Instruction.mk OperandMode.Absolute Operation.ADC),
  (0x7D, Instruction.mk OperandMode.AbsoluteX Operation.ADC),
  (0x79, Instruction.mk OperandMode.AbsoluteY Operation.ADC),
  (0x61, Instruction.mk OperandMode.IndirectX Operation.ADC),
  (0x71, Instruction.mk OperandMode.IndirectY Operation.ADC),
  (0x29, Instruction.mk OperandMode.Immediate Operation.AND),
  (0x25, Instruction.mk OperandMode.ZeroPage Operation.AND),
  (0x35, Instruction.mk OperandMode.ZeroPageX Operation.AND),
  (0x2D, Instruction.mk OperandMode.Absolute Operation.AND),
  (0x3D, Instruction.mk OperandMode.AbsoluteX Operation.AND),
  (0x39, Instruction.mk OperandMode.AbsoluteY Operation.AND),
  (0x21, Instruction.mk OperandMode.IndirectX Operation.AND),
  (0x31, Instruction.mk OperandMode.IndirectY Operation.AND),
  (0x0A, Instruction.mk OperandMode.Accumulator Operation.ASL),
  (0x06, Instruction.mk OperandMode.ZeroPage Operation.ASL),
  (0x16, Instruction.mk OperandMode.ZeroPageX Operation.ASL),
  (0x0E, Instruction.mk OperandMode.Absolute Operation.ASL),
  (0x1E, Instruction.mk OperandMode.AbsoluteX Operation.ASL),
  (0x90, Instruction.mk OperandMode.Immediate Operation.BCC),
  (0xB0, Instruction.mk OperandMode.Immediate Operation.BCS),
  (0xF0, Instruction.mk OperandMode.Immediate Operation.BEQ),
  (0x24, Instruction.mk OperandMode.ZeroPage Operation.BIT),
  (0x2C, Instruction.mk OperandMode.Absolute Operation.BIT),
  (0x30, Instruction.mk OperandMode.Immediate Operation.BMI),
  (0xD0, Instruction.mk OperandMode.Immediate Operation.BNE),
  (0x10, Instruction.mk OperandMode.Immediate Operation.BPL),
  (0x00, Instruction.mk OperandMode.Implied Operation.BRK),
  (0x50, Instruction.mk OperandMode.Immediate Operation.BVC),
  (0x70, Instruction.mk OperandMode.Immediate Operation.BVS),
  (0x18, Instruction.mk OperandMode.Implied Operation.CLC),
  (0xD8, Instruction.mk OperandMode.Implied Operation.CLD),
  (0x58, Instruction.mk OperandMode.Implied Operation.CLI),
  (0xB8, Instruction.mk OperandMode.Implied Operation.CLV),
  (0xC9, Instruction.mk OperandMode.Immediate Operation.CMP),
  (0xC5, Instruction.mk OperandMode.ZeroPage Operation.CMP),
  (0xD5, Instruction.mk OperandMode.ZeroPageX Operation.CMP),
  (0xCD, Instruction.mk OperandMode.Absolute Operation.CMP),
  (0xDD, Instruction.mk OperandMode.AbsoluteX Operation.CMP),
  (0xD9, Instruction.mk OperandMode.AbsoluteY Operation.CMP),
  (0xC1, Instruction.mk OperandMode.IndirectX Operation.CMP),
  (0xD1, Instruction.mk OperandMode.IndirectY Operation.CMP),
  (0xE0, Instruction.mk OperandMode.Immediate Operation.CPX),
  (0xE4, Instruction.mk OperandMode.ZeroPage Operation.CPX),
  (0xEC, Instruction.mk OperandMode.Absolute Operation.CPX),
  (0xC0, Instruction.mk OperandMode.Immediate Operation.CPY),
  (0xC4, Instruction.mk OperandMode.ZeroPage Operation.CPY),
  (0xCC, Instruction.mk OperandMode.Absolute Operation.CPY),
  (0xC6, Instruction.mk OperandMode.ZeroPage Operation.DEC),
  (0xD6, Instruction.mk OperandMode.ZeroPageX Operation.DEC),
  (0xCE, Instruction.mk OperandMode.Absolute Operation.DEC),
  (0xDE, Instruction.mk OperandMode.AbsoluteX Operation.DEC),
  (0xCA, Instruction.mk OperandMode.Implied Operation.DEX),
  (0x88, Instruction.mk OperandMode.Implied Operation.DEY),
  (0x49, Instruction.mk OperandMode.Immediate Operation.EOR),
  (0x45, Instruction.mk OperandMode.ZeroPage Operation.EOR),
  (0x55, Instruction.mk OperandMode.ZeroPageX Operation.EOR),
  (0x4D, Instruction.mk OperandMode.Absolute Operation.EOR),
  (0x5D, Instruction.mk OperandMode.AbsoluteX Operation.EOR),
  (0x59, Instruction.mk OperandMode.AbsoluteY Operation.EOR),
  (0x41, Instruction.mk OperandMode.IndirectX Operation.EOR),
  (0x51, Instruction.mk OperandMode.IndirectY Operation.EOR),
  (0xE6, Instruction.mk OperandMode.ZeroPage Operation.INC),
  (0xF6, Instruction.mk OperandMode.ZeroPageX Operation.INC),
  (0xEE, Instruction.mk OperandMode.Absolute Operation.INC),
  (0xFE, Instruction.mk OperandMode.AbsoluteX Operation.INC),
  (0xE8, Instruction.mk OperandMode.Implied Operation.INX),
  (0xC8, Instruction.mk OperandMode.Implied Operation.INY),
  (0x4C, Instruction.mk OperandMode.Absolute Operation.JMP),
  (0x6C, Instruction.mk OperandMode.Indirect Operation.JMP),
  (0x20, Instruction.mk OperandMode.Absolute Operation.JSR),
  (0xA9, Instruction.mk OperandMode.Immediate Operation.LDA),
  (0xA5, Instruction.mk OperandMode.ZeroPage Operation.LDA),
  (0xB5, Instruction.mk OperandMode.ZeroPageX Operation.LDA),
  (0xAD, Instruction.mk OperandMode.Absolute Operation.LDA),
  (0xBD, Instruction.mk OperandMode.AbsoluteX Operation.LDA),
  (0xB9, Instruction.mk OperandMode.AbsoluteY Operation.LDA),
  (0xA1, Instruction.mk OperandMode.IndirectX Operation.LDA),
  (0xB1, Instruction.mk OperandMode.IndirectY Operation.LDA),
  (0xA2, Instruction.mk OperandMode.Immediate Operation.LDX),
  (0xA6, Instruction.mk OperandMode.ZeroPage Operation.LDX),
  (0xB6, Instruction.mk OperandMode.ZeroPageY Operation.LDX),
  (0xAE, Instruction.mk OperandMode.Absolute Operation.LDX),
  (0xBE, Instruction.mk OperandMode.AbsoluteY Operation.LDX),
  (0xA0, Instruction.mk OperandMode.Immediate Operation.LDY),
  (0xA4, Instruction.mk OperandMode.ZeroPage Operation.LDY),
  (0xB4, Instruction.mk OperandMode.ZeroPageX Operation.LDY),
  (0xAC, Instruction.mk OperandMode.Absolute Operation.LDY),
  (0xBC, Instruction.mk OperandMode.AbsoluteX Operation.LDY),
  (0x4A, Instruction.mk OperandMode.Accumulator Operation.LSR),
  (0x46, Instruction.mk OperandMode.ZeroPage Operation.LSR),
  (0x56, Instruction.mk OperandMode.ZeroPageX Operation.LSR),
  (0x4E, Instruction.mk OperandMode.Absolute Operation.LSR),
  (0x5E, Instruction.mk OperandMode.AbsoluteX Operation.LSR),
  (0xEA, Instruction.mk OperandMode.Implied Operation.NOP),
  (0x09, Instruction.mk OperandMode.Immediate Operation.ORA),
  (0x05, Instruction.mk OperandMode.ZeroPage Operation.ORA),
  (0x15, Instruction.mk OperandMode.ZeroPageX Operation.ORA),
  (0x0D, Instruction.mk OperandMode.Absolute Operation.ORA),
  (0x1D, Instruction.mk OperandMode.AbsoluteX Operation.ORA),
  (0x19, Instruction.mk OperandMode.AbsoluteY Operation.ORA),
  (0x01, Instruction.mk OperandMode.IndirectX Operation.ORA),
  (0x11, Instruction.mk OperandMode.IndirectY Operation.ORA),
  (0x48, Instruction.mk OperandMode.Implied Operation.PHA),
  (0x08, Instruction.mk OperandMode.Implied Operation.PHP),
  (0x68, Instruction.mk OperandMode.Implied Operation.PLA),
  (0x28, Instruction.mk OperandMode.Implied Operation.PLP),
  (0x2A, Instruction.mk OperandMode.Accumulator Operation.ROL),
  (0x26, Instruction.mk OperandMode.ZeroPage Operation.ROL),
  (0x36, Instruction.mk OperandMode.ZeroPageX Operation.ROL),
  (0x2E, Instruction.mk OperandMode.Absolute Operation.ROL),
  (0x3E, Instruction.mk OperandMode.AbsoluteX Operation.ROL),
  (0x6A, Instruction.mk OperandMode.Accumulator Operation.ROR),
  (0x66, Instruction.mk OperandMode.ZeroPage Operation.ROR),
  (0x76, Instruction.mk OperandMode.ZeroPageX Operation.ROR),
  (0x6E, Instruction.mk OperandMode.Absolute Operation.ROR),
  (0x7E, Instruction.mk OperandMode.AbsoluteX Operation.ROR),
  (0x40, Instruction.mk OperandMode.Implied Operation.RTI),
  (0x60, Instruction.mk OperandMode.Implied Operation.RTS),
  (0xE9, Instruction.mk OperandMode.Immediate Operation.SBC),
  (0xE5, Instruction.mk OperandMode.ZeroPage Operation.SBC),
  (0xF5, Instruction.mk OperandMode.ZeroPageX Operation.SBC),
  (0xED, Instruction.mk OperandMode.Absolute Operation.SBC),
  (0xFD, Instruction.mk OperandMode.AbsoluteX Operation.SBC),
  (0xF9, Instruction.mk OperandMode.AbsoluteY Operation.SBC),
  (0xE1, Instruction.mk OperandMode.IndirectX Operation.SBC),
  (0xF1, Instruction.mk OperandMode.IndirectY Operation.SBC),
  (0x38, Instruction.mk OperandMode.Implied Operation.SEC),
  (0xF8, Instruction.mk OperandMode.Implied Operation.SED),
  (0x78, Instruction.mk OperandMode.Implied Operation.SEI),
  (0x85, Instruction.mk OperandMode.ZeroPage Operation.STA),
  (0x95, Instruction.mk OperandMode.ZeroPageX Operation.STA),
  (0x8D, Instruction.mk OperandMode.Absolute Operation.STA),
  (0x9D, Instruction.mk OperandMode.AbsoluteX Operation.STA),
  (0x99, Instruction.mk OperandMode.AbsoluteY Operation.STA),
  (0x81, Instruction.mk OperandMode.IndirectX Operation.STA),
  (0x91, Instruction.mk OperandMode.IndirectY Operation.STA),
  (0x86, Instruction.mk OperandMode.ZeroPage Operation.STX),
  (0x96, Instruction.mk OperandMode.ZeroPageY Operation.STX),
  (0x8E, Instruction.mk OperandMode.Absolute Operation.STX),
  (0x84, Instruction.mk OperandMode.ZeroPage Operation.STY),
  (0x94, Instruction.mk OperandMode.ZeroPageX Operation.STY),
  (0x8C, Instruction.mk OperandMode.Absolute Operation.STY),
  (0xAA, Instruction.mk OperandMode.Implied Operation.TAX),
  (0xA8, Instruction.mk OperandMode.Implied Operation.TAY),
  (0xBA, Instruction.mk OperandMode.Implied Operation.TSX),
  (0x8A, Instruction.mk OperandMode.Implied Operation.TXA),
  (0x9A, Instruction.mk OperandMode.Implied Operation.TXS),
  (0x98, Instruction.mk OperandMode.Implied Operation.TYA)]

def instruction_to_bytecode (instruction : Instruction) : Except String Nat :=
  match INSTRUCTION_TUPLES.find? (fun p => p.2 == instruction) with
  | some p => .ok p.1
  | none => .error "Can\x27t find instruction"

/-- src/src/instruction.rs `bytecode_to_instruction`: first table entry
whose byte matches, else an error. -/
def bytecode_to_instruction (bytecode : Nat) : Except String Instruction :=
  match INSTRUCTION_TUPLES.find? (fun p => p.1 == bytecode) with
  | some p => .ok p.2
  | none => .error "Can\x27t find instruction"

/-- Modelled from the spec: src/src/lib.rs imports `decode_instruction`
from the instruction module, but no definition under src carries that
name.  Spec §4.1 specifies the decoder as the total opcode-table lookup
byte → (mode, operation), which is `bytecode_to_instruction`. -/
def decode_instruction (bytecode : Nat) : Except String Instruction :=
  bytecode_to_instruction bytecode

/-- src/src/lib.rs `StatusFlag` with its hardware bit positions. -/
inductive StatusFlag where
  | CARRY
  | ZERO
  | INTERRUPT
  | DECIMAL
  | BREAK
  | RESERVED
  | OVERFLOW
  | NEGATIVE
deriving DecidableEq, Repr

/-- The `StatusFlag as u8` discriminants (0..7) from src/src/lib.rs. -/
def StatusFlag.index : StatusFlag → Nat
  | .CARRY => 0
  | .ZERO => 1
  | .INTERRUPT => 2
  | .DECIMAL => 3
  | .BREAK => 4
  | .RESERVED => 5
  | .OVERFLOW => 6
  | .NEGATIVE => 7

/-- src/src/lib.rs `RegisterFile` (all-zero Default). -/
structure RegisterFile where
  accumulator : Nat := 0
  x : Nat := 0
  y : Nat := 0
  status : Nat := 0
  stack_pointer : Nat := 0
  program_counter : Nat := 0
deriving DecidableEq, Repr

/-- src/src/lib.rs `ComputerState`. -/
structure ComputerState where
  memory : List Nat
  registers : RegisterFile
deriving DecidableEq, Repr

/-- `self.registers.accumulator = v`. -/
def set_accumulator (s : ComputerState) (v : Nat) : ComputerState :=
  {s with registers := {s.registers with accumulator := v}}

/-- `self.registers.x = v`. -/
def set_x_register (s : ComputerState) (v : Nat) : ComputerState :=
  {s with registers := {s.registers with x := v}}

/-- `self.registers.y = v`. -/
def set_y_register (s : ComputerState) (v : Nat) : ComputerState :=
  {s with registers := {s.registers with y := v}}

/-- `self.registers.status = v`. -/
def set_status_byte (s : ComputerState) (v : Nat) : ComputerState :=
  {s with registers := {s.registers with status := v}}

/-- `self.registers.stack_pointer = v`. -/
def set_stack_pointer (s : ComputerState) (v : Nat) : ComputerState :=
  {s with registers := {s.registers with stack_pointer := v}}

/-- `self.registers.program_counter = v`. -/
def set_program_counter (s : ComputerState) (v : Nat) : ComputerState :=
  {s with registers := {s.registers with program_counter := v}}

/-- src/src/lib.rs `Operand`. -/
inductive Operand where
  | Accumulator
  | Address (addr : Nat)
  | Immediate (value : Nat)
  | Implied
deriving DecidableEq, Repr

/-- u8 `wrapping_add`. -/
def u8_wrapping_add (a b : Nat) : Nat := (a + b) % 256

/-- u8 `wrapping_sub`. -/
def u8_wrapping_sub (a b : Nat) : Nat := (a % 256 + (256 - b % 256)) % 256

/-- u16 wrapping addition (release-mode `+` / `wrapping_add` on u16). -/
def u16_wrapping_add (a b : Nat) : Nat := (a + b) % 65536

/-- u16 `wrapping_sub`. -/
def u16_wrapping_sub (a b : Nat) : Nat := (a % 65536 + (65536 - b % 65536)) % 65536

/-- src/src/lib.rs `ComputerState::initialize` (named initialize_state
here because `initialize` is a Lean keyword). -/
def initialize_state : ComputerState :=
  ⟨List.replicate 65536 0, {}⟩

/-- src/src/lib.rs `ComputerState::initialize_from_image`: the image
becomes the memory as-is (no zero-fill, no truncation). -/
def initialize_from_image (memory : List Nat) : ComputerState :=
  ⟨memory, {}⟩

/-- src/src/lib.rs `get_byte_from_memory`: `self.memory[index]`;
none models the Vec index panic when the index is out of range. -/
def get_byte_from_memory (s : ComputerState) (index : Nat) : Option Nat :=
  s.memory.get? index

/-- src/src/lib.rs `get_word_from_memory`: little-endian u16 from
bytes at index and index+1. -/
def get_word_from_memory (s : ComputerState) (index : Nat) : Option Nat :=
  match s.memory.get? index, s.memory.get? (index + 1) with
  | some low, some high => some (low + 256 * high)
  | _, _ => none

/-- src/src/lib.rs `write_byte_to_memory`: `self.memory[index] = value`;
none models the Vec index panic. -/
def write_byte_to_memory (s : ComputerState) (index value : Nat) : Option ComputerState :=
  if index < s.memory.length then
    some {s with memory := s.memory.set index value}
  else
    none

/-- src/src/lib.rs `write_word_to_memory`: little-endian bytes to
index and index+1. -/
def write_word_to_memory (s : ComputerState) (index value : Nat) : Option ComputerState :=
  match write_byte_to_memory s index (value % 256) with
  | some s1 => write_byte_to_memory s1 (index + 1) (value / 256 % 256)
  | none => none

/-- src/src/lib.rs `pull_byte_from_stack`: increment the stack pointer
(wrapping), then read from 0x100 + stack_pointer. -/
def pull_byte_from_stack (s : ComputerState) : Option (Nat × ComputerState) :=
  let sp := u8_wrapping_add s.registers.stack_pointer 1
  let s1 : ComputerState := set_stack_pointer s (sp)
  match get_byte_from_memory s1 (sp + 0x100) with
  | some v => some (v, s1)
  | none => none

/-- src/src/lib.rs `pull_word_from_stack`: low byte then high byte. -/
def pull_word_from_stack (s : ComputerState) : Option (Nat × ComputerState) :=
  match pull_byte_from_stack s with
  | some (low, s1) =>
    match pull_byte_from_stack s1 with
    | some (high, s2) => some (low + 256 * high, s2)
    | none => none
  | none => none

/-- src/src/lib.rs `push_byte_to_stack`: write to 0x100 + stack_pointer,
then decrement the stack pointer (wrapping). -/
def push_byte_to_stack (s : ComputerState) (value : Nat) : Option ComputerState :=
  let stack_address := s.registers.stack_pointer + 0x100
  match write_byte_to_memory s stack_address value with
  | some s1 =>
    some (set_stack_pointer s1 (u8_wrapping_sub s1.registers.stack_pointer 1))
  | none => none

/-- src/src/lib.rs `push_word_to_stack`: high byte first, then low. -/
def push_word_to_stack (s : ComputerState) (value : Nat) : Option ComputerState :=
  match push_byte_to_stack s (value / 256 % 256) with
  | some s1 => push_byte_to_stack s1 (value % 256)
  | none => none

/-- Outcome of a &self accessor returning Result<u8, &str>:
ok, an Err value, or a panic from out-of-range indexing. -/
inductive ValueResult where
  | ok (value : Nat)
  | err (msg : String)
  | panic
deriving DecidableEq, Repr

/-- Outcome of a &mut self method returning Result<(), &str>: the state
is kept on an Err return (the caller still holds the mutations made
before the early return); panic aborts. -/
inductive ExecResult where
  | ok (s : ComputerState)
  | err (msg : String) (s : ComputerState)
  | panic
deriving DecidableEq, Repr

/-- Outcome of `step`, which takes self by value: an Err return drops
the state, so only the message remains. -/
inductive StepResult where
  | ok (s : ComputerState)
  | err (msg : String)
  | panic
deriving DecidableEq, Repr

/-- src/src/lib.rs `get_operand_value`. -/
def get_operand_value (s : ComputerState) (operand : Operand) : ValueResult :=
  match operand with
  | .Accumulator => .ok s.registers.accumulator
  | .Address addr =>
    match get_byte_from_memory s addr with
    | some v => .ok v
    | none => .panic
  | .Immediate value => .ok value
  | .Implied => .err "Cannot get implied operand value"

/-- src/src/lib.rs `set_operand_value`. -/
def set_operand_value (s : ComputerState) (operand : Operand) (value : Nat) : ExecResult :=
  match operand with
  | .Accumulator => .ok (set_accumulator s (value))
  | .Address addr =>
    match write_byte_to_memory s addr value with
    | some s1 => .ok s1
    | none => .panic
  | .Immediate _ => .err "Cannot set immediate operand value" s
  | .Implied => .err "Cannot set implied operand value" s

/-- src/src/lib.rs `get_status_flag`: bit `index` of the status byte. -/
def get_status_flag (s : ComputerState) (status_flag : StatusFlag) : Bool :=
  ((s.registers.status >>> status_flag.index) &&& 1) != 0

/-- src/src/lib.rs `set_status_flag`: clear the bit with the 8-bit
complement mask `!(1 << index)` (= 255 ^^^ (1 <<< index)), then OR in
the new bit. -/
def set_status_flag (s : ComputerState) (status_flag : StatusFlag) (new_flag : Bool) :
    ComputerState :=
  let index := status_flag.index
  set_status_byte s ((s.registers.status &&& (255 ^^^ (1 <<< index))) ||| ((if new_flag then 1 else 0) <<< index))

/-- src/src/lib.rs `set_zero_and_negative_flags`. -/
def set_zero_and_negative_flags (s : ComputerState) (value : Nat) : ComputerState :=
  let s1 := set_status_flag s .ZERO (value == 0)
  set_status_flag s1 .NEGATIVE ((value &&& (1 <<< 7)) != 0)

/-- Modelled from the spec: `is_negative` lives in src/src/util.rs,
which is absent from src.  Spec §3 fixes bit 7 as the sign/Negative bit
and §4.3 speaks of operand/accumulator/result sign bits, so the helper
is the bit-7 test. -/
def is_negative (value : Nat) : Bool := value.testBit 7

/-- src/src/lib.rs `execute_add_with_carry` (ADC). -/
def execute_add_with_carry (s : ComputerState) (operand : Operand) : ExecResult :=
  match get_operand_value s operand with
  | .err m => .err m s
  | .panic => .panic
  | .ok operand_value =>
    let carry : Nat := if get_status_flag s .CARRY then 1 else 0
    let accumulator := s.registers.accumulator
    let sum := operand_value + carry + accumulator
    let new_carry := (sum &&& (1 <<< 8)) != 0
    let s1 := set_status_flag s .CARRY new_carry
    let sum2 := sum &&& 0xFF
    let byte_positive := !is_negative operand_value
    let accumulator_positive := !is_negative (accumulator % 256)
    let sum_positive := !is_negative sum2
    let overflow := (byte_positive == accumulator_positive) && (sum_positive != byte_positive)
    let s2 := set_status_flag s1 .OVERFLOW overflow
    let s3 := set_zero_and_negative_flags s2 sum2
    .ok (set_accumulator s3 (sum2))

/-- src/src/lib.rs `execute_and` (AND). -/
def execute_and (s : ComputerState) (operand : Operand) : ExecResult :=
  match get_operand_value s operand with
  | .err m => .err m s
  | .panic => .panic
  | .ok operand_value =>
    let result := s.registers.accumulator &&& operand_value
    let s1 := set_zero_and_negative_flags s result
    .ok (set_accumulator s1 (result))

/-- src/src/lib.rs `execute_left_shift` (ASL): u8 shift truncates to
8 bits. -/
def execute_left_shift (s : ComputerState) (operand : Operand) : ExecResult :=
  match get_operand_value s operand with
  | .err m => .err m s
  | .panic => .panic
  | .ok operand_value =>
    let high_bit := (operand_value &&& (1 <<< 7)) != 0
    let result := (operand_value <<< 1) % 256
    let s1 := set_status_flag s .CARRY high_bit
    let s2 := set_zero_and_negative_flags s1 result
    set_operand_value s2 operand result

/-- src/src/lib.rs `execute_branch_if`: when the flag equals `value`,
add the signed operand minus the 2 bytes already consumed to the
program counter (16-bit wrapping). -/
def execute_branch_if (s : ComputerState) (operand : Operand) (flag : StatusFlag)
    (value : Bool) : ExecResult :=
  if get_status_flag s flag == value then
    match get_operand_value s operand with
    | .err m => .err m s
    | .panic => .panic
    | .ok ov =>
      let operand_value := if ov > 127 then u16_wrapping_sub ov 256 else ov
      .ok (set_program_counter s (u16_wrapping_add s.registers.program_counter (u16_wrapping_sub operand_value 2)))
  else
    .ok s

/-- src/src/lib.rs `execute_bit_test` (BIT). -/
def execute_bit_test (s : ComputerState) (operand : Operand) : ExecResult :=
  match get_operand_value s operand with
  | .err m => .err m s
  | .panic => .panic
  | .ok operand_value =>
    let bit_7 := (operand_value &&& (1 <<< 7)) != 0
    let bit_6 := (operand_value &&& (1 <<< 6)) != 0
    let and_result := s.registers.accumulator &&& operand_value
    let s1 := set_status_flag s .NEGATIVE bit_7
    let s2 := set_status_flag s1 .OVERFLOW bit_6
    .ok (set_status_flag s2 .ZERO (and_result == 0))

/-- src/src/lib.rs `execute_compare` (CMP/CPX/CPY). -/
def execute_compare (s : ComputerState) (operand : Operand) (register : Nat) : ExecResult :=
  match get_operand_value s operand with
  | .err m => .err m s
  | .panic => .panic
  | .ok operand_value =>
    let substract_value := u8_wrapping_sub register operand_value
    let s1 := set_zero_and_negative_flags s substract_value
    .ok (set_status_flag s1 .CARRY (decide (operand_value ≤ register)))

/-- src/src/lib.rs `execute_increment` (INC / DEC via negate). -/
def execute_increment (s : ComputerState) (operand : Operand) (negate : Bool) : ExecResult :=
  match get_operand_value s operand with
  | .err m => .err m s
  | .panic => .panic
  | .ok operand_value =>
    let result := if negate then u8_wrapping_sub operand_value 1
                  else u8_wrapping_add operand_value 1
    let s1 := set_zero_and_negative_flags s result
    set_operand_value s1 operand result

/-- src/src/lib.rs `execute_increment_x` (INX / DEX). -/
def execute_increment_x (s : ComputerState) (negate : Bool) : ExecResult :=
  let result := if negate then u8_wrapping_sub s.registers.x 1
                else u8_wrapping_add s.registers.x 1
  let s1 := set_zero_and_negative_flags s result
  .ok (set_x_register s1 (result))

/-- src/src/lib.rs `execute_increment_y` (INY / DEY). -/
def execute_increment_y (s : ComputerState) (negate : Bool) : ExecResult :=
  let result := if negate then u8_wrapping_sub s.registers.y 1
                else u8_wrapping_add s.registers.y 1
  let s1 := set_zero_and_negative_flags s result
  .ok (set_y_register s1 (result))

/-- src/src/lib.rs `execute_exclusive_or` (EOR). -/
def execute_exclusive_or (s : ComputerState) (operand : Operand) : ExecResult :=
  match get_operand_value s operand with
  | .err m => .err m s
  | .panic => .panic
  | .ok operand_value =>
    let result := s.registers.accumulator ^^^ operand_value
    let s1 := set_zero_and_negative_flags s result
    .ok (set_accumulator s1 (result))

/-- src/src/lib.rs `execute_jump` (JMP / JSR via save_ra): JSR pushes
program_counter - 1 before checking the operand. -/
def execute_jump (s : ComputerState) (operand : Operand) (save_ra : Bool) : ExecResult :=
  let pushed : Option ComputerState :=
    if save_ra then
      push_word_to_stack s (u16_wrapping_sub s.registers.program_counter 1)
    else
      some s
  match pushed with
  | none => .panic
  | some s1 =>
    match operand with
    | .Address a => .ok (set_program_counter s1 (a))
    | _ => .err "Jump must have Address-type operand" s1

/-- src/src/lib.rs `execute_load_accumulator` (LDA). -/
def execute_load_accumulator (s : ComputerState) (operand : Operand) : ExecResult :=
  match get_operand_value s operand with
  | .err m => .err m s
  | .panic => .panic
  | .ok operand_value =>
    let s1 := set_zero_and_negative_flags s operand_value
    .ok (set_accumulator s1 (operand_value))

/-- src/src/lib.rs `execute_load_x` (LDX). -/
def execute_load_x (s : ComputerState) (operand : Operand) : ExecResult :=
  match get_operand_value s operand with
  | .err m => .err m s
  | .panic => .panic
  | .ok operand_value =>
    let s1 := set_zero_and_negative_flags s operand_value
    .ok (set_x_register s1 (operand_value))

/-- src/src/lib.rs `execute_load_y` (LDY). -/
def execute_load_y (s : ComputerState) (operand : Operand) : ExecResult :=
  match get_operand_value s operand with
  | .err m => .err m s
  | .panic => .panic
  | .ok operand_value =>
    let s1 := set_zero_and_negative_flags s operand_value
    .ok (set_y_register s1 (operand_value))

/-- src/src/lib.rs `execute_right_shift` (LSR). -/
def execute_right_shift (s : ComputerState) (operand : Operand) : ExecResult :=
  match get_operand_value s operand with
  | .err m => .err m s
  | .panic => .panic
  | .ok operand_value =>
    let low_bit := (operand_value &&& 1) != 0
    let result := operand_value >>> 1
    let s1 := set_status_flag s .CARRY low_bit
    let s2 := set_zero_and_negative_flags s1 result
    set_operand_value s2 operand result

/-- src/src/lib.rs `execute_inclusive_or` (ORA). -/
def execute_inclusive_or (s : ComputerState) (operand : Operand) : ExecResult :=
  match get_operand_value s operand with
  | .err m => .err m s
  | .panic => .panic
  | .ok operand_value =>
    let result := s.registers.accumulator ||| operand_value
    let s1 := set_zero_and_negative_flags s result
    .ok (set_accumulator s1 (result))

/-- src/src/lib.rs `execute_pull_accumulator` (PLA). -/
def execute_pull_accumulator (s : ComputerState) : ExecResult :=
  match pull_byte_from_stack s with
  | none => .panic
  | some (new_accumulator, s1) =>
    let s2 := set_zero_and_negative_flags s1 new_accumulator
    .ok (set_accumulator s2 (new_accumulator))

/-- src/src/lib.rs `execute_pull_status` (PLP). -/
def execute_pull_status (s : ComputerState) : ExecResult :=
  match pull_byte_from_stack s with
  | none => .panic
  | some (v, s1) => .ok (set_status_byte s1 (v))

/-- src/src/lib.rs `execute_rotate_right` (ROR). -/
def execute_rotate_right (s : ComputerState) (operand : Operand) : ExecResult :=
  match get_operand_value s operand with
  | .err m => .err m s
  | .panic => .panic
  | .ok operand_value =>
    let low_bit := (operand_value &&& 1) != 0
    let new_high_bit := (if get_status_flag s .CARRY then 1 else 0) <<< 7
    let result := (operand_value >>> 1) ||| new_high_bit
    let s1 := set_zero_and_negative_flags s result
    let s2 := set_status_flag s1 .CARRY low_bit
    set_operand_value s2 operand result

/-- src/src/lib.rs `execute_rotate_left` (ROL): u8 shift truncates to
8 bits before the OR. -/
def execute_rotate_left (s : ComputerState) (operand : Operand) : ExecResult :=
  match get_operand_value s operand with
  | .err m => .err m s
  | .panic => .panic
  | .ok operand_value =>
    let high_bit := (operand_value &&& (1 <<< 7)) != 0
    let new_low_bit : Nat := if get_status_flag s .CARRY then 1 else 0
    let result := ((operand_value <<< 1) % 256) ||| new_low_bit
    let s1 := set_zero_and_negative_flags s result
    let s2 := set_status_flag s1 .CARRY high_bit
    set_operand_value s2 operand result

/-- src/src/lib.rs `execute_return_from_interrupt` (RTI). -/
def execute_return_from_interrupt (s : ComputerState) : ExecResult :=
  match pull_byte_from_stack s with
  | none => .panic
  | some (st, s1) =>
    let s2 : ComputerState := set_status_byte s1 (st)
    match pull_word_from_stack s2 with
    | none => .panic
    | some (pc, s3) => .ok (set_program_counter s3 (pc))

/-- src/src/lib.rs `execute_return_from_subroutine` (RTS): popped word
plus one (u16). -/
def execute_return_from_subroutine (s : ComputerState) : ExecResult :=
  match pull_word_from_stack s with
  | none => .panic
  | some (v, s1) =>
    .ok (set_program_counter s1 ((v + 1) % 65536))

/-- src/src/lib.rs `execute_substract_with_carry` (SBC): two chained
u8 overflowing subtractions. -/
def execute_substract_with_carry (s : ComputerState) (operand : Operand) : ExecResult :=
  match get_operand_value s operand with
  | .err m => .err m s
  | .panic => .panic
  | .ok operand_value =>
    let accumulator := s.registers.accumulator
    let carry : Nat := 1 - (if get_status_flag s .CARRY then 1 else 0)
    let first_sum := u8_wrapping_sub accumulator operand_value
    let first_overflow := decide (accumulator % 256 < operand_value % 256)
    let result := u8_wrapping_sub first_sum carry
    let second_overflow := decide (first_sum % 256 < carry % 256)
    let new_carry := !first_overflow && !second_overflow
    let s1 := set_status_flag s .CARRY new_carry
    let byte_positive := !is_negative operand_value
    let accumulator_positive := !is_negative (accumulator % 256)
    let sum_positive := !is_negative result
    let overflow := (byte_positive != accumulator_positive) && (sum_positive == byte_positive)
    let s2 := set_status_flag s1 .OVERFLOW overflow
    let s3 := set_zero_and_negative_flags s2 result
    .ok (set_accumulator s3 (result))

/-- src/src/lib.rs `execute_operation`: dispatch; every operation not
listed (BRK and the stores/transfers STA STX STY TAX TAY TSX TXA TXS
TYA) falls through to Err("Unimplemented operation"). -/
def execute_operation (s : ComputerState) (op : Operation) (operand : Operand) : ExecResult :=
  match op with
  | .ADC => execute_add_with_carry s operand
  | .AND => execute_and s operand
  | .ASL => execute_left_shift s operand
  | .BCC => execute_branch_if s operand .CARRY false
  | .BCS => execute_branch_if s operand .CARRY true
  | .BEQ => execute_branch_if s operand .ZERO true
  | .BIT => execute_bit_test s operand
  | .BMI => execute_branch_if s operand .NEGATIVE true
  | .BNE => execute_branch_if s operand .ZERO false
  | .BPL => execute_branch_if s operand .NEGATIVE false
  | .BVC => execute_branch_if s operand .OVERFLOW false
  | .BVS => execute_branch_if s operand .OVERFLOW true
  | .CLC => .ok (set_status_flag s .CARRY false)
  | .CLD => .ok (set_status_flag s .DECIMAL false)
  | .CLI => .ok (set_status_flag s .INTERRUPT false)
  | .CLV => .ok (set_status_flag s .OVERFLOW false)
  | .CMP => execute_compare s operand s.registers.accumulator
  | .CPX => execute_compare s operand s.registers.x
  | .CPY => execute_compare s operand s.registers.y
  | .DEC => execute_increment s operand true
  | .DEX => execute_increment_x s true
  | .DEY => execute_increment_y s true
  | .EOR => execute_exclusive_or s operand
  | .INC => execute_increment s operand false
  | .INX => execute_increment_x s false
  | .INY => execute_increment_y s false
  | .JMP => execute_jump s operand false
  | .JSR => execute_jump s operand true
  | .LDA => execute_load_accumulator s operand
  | .LDX => execute_load_x s operand
  | .LDY => execute_load_y s operand
  | .LSR => execute_right_shift s operand
  | .NOP => .ok s
  | .ORA => execute_inclusive_or s operand
  | .PHA =>
    match push_byte_to_stack s s.registers.accumulator with
    | some s1 => .ok s1
    | none => .panic
  | .PHP =>
    match push_byte_to_stack s s.registers.status with
    | some s1 => .ok s1
    | none => .panic
  | .PLA => execute_pull_accumulator s
  | .PLP => execute_pull_status s
  | .ROL => execute_rotate_left s operand
  | .ROR => execute_rotate_right s operand
  | .RTI => execute_return_from_interrupt s
  | .RTS => execute_return_from_subroutine s
  | .SBC => execute_substract_with_carry s operand
  | .SEC => .ok (set_status_flag s .CARRY true)
  | .SED => .ok (set_status_flag s .DECIMAL true)
  | .SEI => .ok (set_status_flag s .INTERRUPT true)
  | _ => .err "Unimplemented operation" s

/-- src/src/lib.rs `get_absolute_operand`. -/
def get_absolute_operand (s : ComputerState) (offset : Nat) :
    Option (Operand × ComputerState) :=
  match get_word_from_memory s s.registers.program_counter with
  | none => none
  | some address =>
    some (.Address (u16_wrapping_add address offset),
      set_program_counter s ((s.registers.program_counter + 2) % 65536))

/-- src/src/lib.rs `get_immediate_operand`. -/
def get_immediate_operand (s : ComputerState) : Option (Operand × ComputerState) :=
  let address := s.registers.program_counter
  match get_byte_from_memory s address with
  | none => none
  | some v =>
    some (.Immediate v,
      set_program_counter s ((address + 1) % 65536))

/-- src/src/lib.rs `get_indirect_operand`. -/
def get_indirect_operand (s : ComputerState) : Option (Operand × ComputerState) :=
  match get_word_from_memory s s.registers.program_counter with
  | none => none
  | some pointer_address =>
    match get_word_from_memory s pointer_address with
    | none => none
    | some pointer =>
      some (.Address pointer,
        set_program_counter s ((s.registers.program_counter + 2) % 65536))

/-- src/src/lib.rs `get_indirect_x_operand`: base + X wrapped to the
zero page before the pointer read. -/
def get_indirect_x_operand (s : ComputerState) : Option (Operand × ComputerState) :=
  match get_byte_from_memory s s.registers.program_counter with
  | none => none
  | some address =>
    let offset := s.registers.x
    let pointer_address := (address + offset) &&& 0xff
    match get_word_from_memory s pointer_address with
    | none => none
    | some pointer =>
      some (.Address pointer,
        set_program_counter s ((s.registers.program_counter + 1) % 65536))

/-- src/src/lib.rs `get_indirect_y_operand`: reads the zero-page
pointer, then adds the offset taken from `self.registers.x` (the
source reads the X register here, not Y). -/
def get_indirect_y_operand (s : ComputerState) : Option (Operand × ComputerState) :=
  match get_byte_from_memory s s.registers.program_counter with
  | none => none
  | some address =>
    match get_word_from_memory s address with
    | none => none
    | some pointer =>
      let offset := s.registers.x
      some (.Address (u16_wrapping_add pointer offset),
        set_program_counter s ((s.registers.program_counter + 1) % 65536))

/-- src/src/lib.rs `get_zero_page_operand`: base + offset masked to
8 bits. -/
def get_zero_page_operand (s : ComputerState) (offset : Nat) :
    Option (Operand × ComputerState) :=
  match get_byte_from_memory s s.registers.program_counter with
  | none => none
  | some address =>
    let final_address := (address + offset) &&& 0xff
    some (.Address final_address,
      set_program_counter s ((s.registers.program_counter + 1) % 65536))

/-- src/src/lib.rs `fetch_operand`. -/
def fetch_operand (s : ComputerState) (mode : OperandMode) :
    Option (Operand × ComputerState) :=
  match mode with
  | .Absolute => get_absolute_operand s 0
  | .AbsoluteX => get_absolute_operand s s.registers.x
  | .AbsoluteY => get_absolute_operand s s.registers.y
  | .Accumulator => some (.Accumulator, s)
  | .Immediate => get_immediate_operand s
  | .Implied => some (.Implied, s)
  | .Indirect => get_indirect_operand s
  | .IndirectX => get_indirect_x_operand s
  | .IndirectY => get_indirect_y_operand s
  | .ZeroPage => get_zero_page_operand s 0
  | .ZeroPageX => get_zero_page_operand s s.registers.x
  | .ZeroPageY => get_zero_page_operand s s.registers.y

/-- src/src/lib.rs `step`: fetch the opcode byte, advance the program
counter, decode, resolve the operand, execute.  step takes self by
value, so an Err return surfaces only the message (the mutated state is
dropped). -/
def step (s : ComputerState) : StepResult :=
  match get_byte_from_memory s s.registers.program_counter with
  | none => .panic
  | some instruction =>
    let s1 : ComputerState := set_program_counter s ((s.registers.program_counter + 1) % 65536)
    match decode_instruction instruction with
    | .error e => .err e
    | .ok decoded =>
      match fetch_operand s1 decoded.mode with
      | none => .panic
      | some (operand, s2) =>
        match execute_operation s2 decoded.operation operand with
        | .ok s3 => .ok s3
        | .err e _ => .err e
        | .panic => .panic

/-- src/src/lib.rs `multiple_steps`: `(0..steps).try_fold(self, step)`. -/
def multiple_steps : ComputerState → Nat → StepResult
  | s, 0 => .ok s
  | s, steps + 1 =>
    match step s with
    | .ok s1 => multiple_steps s1 steps
    | .err e => .err e
    | .panic => .panic

/-- All machine state except the status byte agrees between s and t. -/
def frame_except_status (s t : ComputerState) : Prop :=
  t.memory = s.memory ∧
  t.registers.accumulator = s.registers.accumulator ∧
  t.registers.x = s.registers.x ∧
  t.registers.y = s.registers.y ∧
  t.registers.stack_pointer = s.registers.stack_pointer ∧
  t.registers.program_counter = s.registers.program_counter

/-- Zero and Negative in t reflect the 8-bit value `result`. -/
def zn_from (t : ComputerState) (result : Nat) : Prop :=
  get_status_flag t .ZERO = (result == 0) ∧
  get_status_flag t .NEGATIVE = result.testBit 7

theorem get_status_flag_eq_testBit (s : ComputerState) (f : StatusFlag) :
    get_status_flag s f = s.registers.status.testBit f.index := by
  simp [get_status_flag, Nat.testBit, Nat.and_comm]

theorem StatusFlag.index_lt_eight (f : StatusFlag) : f.index < 8 := by
  cases f <;> decide

theorem testBit_update_bit (st i j : Nat) (bv : Bool) (hi : i < 8) (hj : j < 8) :
    ((st &&& (255 ^^^ (1 <<< i))) ||| ((if bv then 1 else 0) <<< i)).testBit j =
      if j = i then bv else st.testBit j := by
  have h255 : (255 : Nat) = 2 ^ 8 - 1 := by norm_num
  have h1pow : (1 : Nat) = 2 ^ 0 := rfl
  rw [Nat.testBit_lor, Nat.testBit_land, Nat.testBit_xor, h255,
      Nat.testBit_two_pow_sub_one, Nat.shiftLeft_eq, one_mul, Nat.testBit_two_pow,
      Nat.testBit_shiftLeft]
  have hj8 : (decide (j < 8)) = true := decide_eq_true hj
  rcases eq_or_ne j i with rfl | hne
  · have hjj : (decide (j = j)) = true := decide_eq_true rfl
    cases bv
    · rw [if_neg (by simp), Nat.zero_testBit, Bool.and_false, Bool.or_false, hj8, hjj,
        Bool.xor_true, Bool.not_true, Bool.and_false, if_pos rfl]
    · have hge : (decide (j ≥ j)) = true := decide_eq_true (le_refl j)
      have h0 : (decide ((0 : Nat) = j - j)) = true := decide_eq_true (by omega)
      rw [if_pos rfl, h1pow, Nat.testBit_two_pow, hj8, hjj, Bool.xor_true, Bool.not_true,
        Bool.and_false, Bool.false_or, hge, h0, Bool.and_true, if_pos rfl]
  · have hij : (decide (i = j)) = false := decide_eq_false (fun h => hne h.symm)
    have hz : (decide (j ≥ i) && decide ((0 : Nat) = j - i)) = false := by
      rcases Nat.lt_or_ge j i with hlt | hge
      · have h' : (decide (j ≥ i)) = false := decide_eq_false (by omega)
        rw [h', Bool.false_and]
      · have h' : (decide ((0 : Nat) = j - i)) = false := decide_eq_false (by omega)
        rw [h', Bool.and_false]
    cases bv
    · rw [if_neg (by simp), Nat.zero_testBit, Bool.and_false, Bool.or_false, hj8, hij,
        Bool.xor_false, Bool.and_true, if_neg hne]
    · rw [if_pos rfl, h1pow, Nat.testBit_two_pow, hj8, hij, Bool.xor_false, Bool.and_true,
        hz, Bool.or_false, if_neg hne]

theorem status_of_set_status_flag (s : ComputerState) (f : StatusFlag) (b : Bool) :
    (set_status_flag s f b).registers.status =
      (s.registers.status &&& (255 ^^^ (1 <<< f.index))) |||
        ((if b then 1 else 0) <<< f.index) := rfl

theorem StatusFlag.index_injective (f g : StatusFlag) (h : f.index = g.index) : f = g := by
  cases f <;> cases g <;> first | rfl | (exfalso ; revert h ; decide)

theorem get_set_status_flag (s : ComputerState) (f g : StatusFlag) (b : Bool) :
    get_status_flag (set_status_flag s f b) g = if g = f then b else get_status_flag s g := by
  rw [get_status_flag_eq_testBit, get_status_flag_eq_testBit, status_of_set_status_flag,
      testBit_update_bit _ _ _ _ (StatusFlag.index_lt_eight f) (StatusFlag.index_lt_eight g)]
  rcases eq_or_ne g f with rfl | hne
  · simp
  · have : g.index ≠ f.index := fun h => hne (StatusFlag.index_injective g f h)
    simp [this, hne]

theorem set_status_flag_memory (s : ComputerState) (f : StatusFlag) (b : Bool) :
    (set_status_flag s f b).memory = s.memory := rfl

theorem set_status_flag_accumulator (s : ComputerState) (f : StatusFlag) (b : Bool) :
    (set_status_flag s f b).registers.accumulator = s.registers.accumulator := rfl

theorem set_status_flag_x (s : ComputerState) (f : StatusFlag) (b : Bool) :
    (set_status_flag s f b).registers.x = s.registers.x := rfl

theorem set_status_flag_y (s : ComputerState) (f : StatusFlag) (b : Bool) :
    (set_status_flag s f b).registers.y = s.registers.y := rfl

theorem set_status_flag_stack_pointer (s : ComputerState) (f : StatusFlag) (b : Bool) :
    (set_status_flag s f b).registers.stack_pointer = s.registers.stack_pointer := rfl

theorem set_status_flag_program_counter (s : ComputerState) (f : StatusFlag) (b : Bool) :
    (set_status_flag s f b).registers.program_counter = s.registers.program_counter := rfl

theorem get_status_flag_set_accumulator (s : ComputerState) (v : Nat) (g : StatusFlag) :
    get_status_flag (set_accumulator s v) g = get_status_flag s g := rfl

theorem set_zero_and_negative_flags_memory (s : ComputerState) (v : Nat) :
    (set_zero_and_negative_flags s v).memory = s.memory := rfl

theorem set_zero_and_negative_flags_accumulator (s : ComputerState) (v : Nat) :
    (set_zero_and_negative_flags s v).registers.accumulator = s.registers.accumulator := rfl

theorem set_zero_and_negative_flags_x (s : ComputerState) (v : Nat) :
    (set_zero_and_negative_flags s v).registers.x = s.registers.x := rfl

theorem set_zero_and_negative_flags_y (s : ComputerState) (v : Nat) :
    (set_zero_and_negative_flags s v).registers.y = s.registers.y := rfl

theorem set_zero_and_negative_flags_stack_pointer (s : ComputerState) (v : Nat) :
    (set_zero_and_negative_flags s v).registers.stack_pointer = s.registers.stack_pointer := rfl

theorem set_zero_and_negative_flags_program_counter (s : ComputerState) (v : Nat) :
    (set_zero_and_negative_flags s v).registers.program_counter =
      s.registers.program_counter := rfl

theorem get_status_flag_set_zero_and_negative_flags (s : ComputerState) (v : Nat)
    (g : StatusFlag) :
    get_status_flag (set_zero_and_negative_flags s v) g =
      if g = StatusFlag.NEGATIVE then ((v &&& (1 <<< 7)) != 0)
      else if g = StatusFlag.ZERO then (v == 0)
      else get_status_flag s g := by
  unfold set_zero_and_negative_flags
  rw [get_set_status_flag, get_set_status_flag]

theorem and_255_eq_mod (x : Nat) : x &&& 255 = x % 256 := by
  have h : (255 : Nat) = 2 ^ 8 - 1 := by norm_num
  rw [h, Nat.and_pow_two_sub_one_eq_mod]

theorem and_one_shiftLeft_bne_zero (x i : Nat) :
    ((x &&& (1 <<< i)) != 0) = x.testBit i := by
  rw [Nat.shiftLeft_eq, one_mul, Nat.and_two_pow]
  cases h : x.testBit i <;> simp [h]

/-- Claim C5 (confirmed): for any state and operand resolving to the
byte value b, ADC sets the accumulator to the low 8 bits of
accumulator + b + carry_in, Carry to bit 8 of that 16-bit sum,
Overflow to true exactly when the sign bit of b equals the sign bit of
the accumulator while the sign bit of the 8-bit result differs, and
Zero and Negative from the 8-bit result. -/
theorem adc_semantics (s : ComputerState) (operand : Operand) (b : Nat)
    (hv : get_operand_value s operand = .ok b) (hb : b < 256)
    (ha : s.registers.accumulator < 256) :
    ∃ t, execute_operation s Operation.ADC operand = .ok t ∧
      t.registers.accumulator =
        (s.registers.accumulator + b + (if get_status_flag s .CARRY then 1 else 0)) % 256 ∧
      get_status_flag t .CARRY =
        (s.registers.accumulator + b + (if get_status_flag s .CARRY then 1 else 0)).testBit 8 ∧
      get_status_flag t .OVERFLOW =
        ((b.testBit 7 == s.registers.accumulator.testBit 7) &&
          !(((s.registers.accumulator + b +
              (if get_status_flag s .CARRY then 1 else 0)) % 256).testBit 7 == b.testBit 7)) ∧
      get_status_flag t .ZERO =
        (((s.registers.accumulator + b +
            (if get_status_flag s .CARRY then 1 else 0)) % 256) == 0) ∧
      get_status_flag t .NEGATIVE =
        ((s.registers.accumulator + b +
          (if get_status_flag s .CARRY then 1 else 0)) % 256).testBit 7 := by
  have key : execute_add_with_carry s operand = ExecResult.ok
      (set_accumulator
        (set_zero_and_negative_flags
          (set_status_flag
            (set_status_flag s .CARRY
              (((b + (if get_status_flag s .CARRY then 1 else 0) +
                  s.registers.accumulator) &&& (1 <<< 8)) != 0))
            .OVERFLOW
            (((!is_negative b) == (!is_negative (s.registers.accumulator % 256))) &&
              ((!is_negative ((b + (if get_status_flag s .CARRY then 1 else 0) +
                  s.registers.accumulator) &&& 0xFF)) != (!is_negative b))))
          ((b + (if get_status_flag s .CARRY then 1 else 0) +
            s.registers.accumulator) &&& 0xFF))
        ((b + (if get_status_flag s .CARRY then 1 else 0) +
          s.registers.accumulator) &&& 0xFF)) := by
    unfold execute_add_with_carry
    rw [hv]
  rw [show execute_operation s Operation.ADC operand = execute_add_with_carry s operand
      from rfl, key]
  have hsum : b + (if get_status_flag s .CARRY then 1 else 0) + s.registers.accumulator =
      s.registers.accumulator + b + (if get_status_flag s .CARRY then 1 else 0) := by omega
  refine ⟨_, rfl, ?_, ?_, ?_, ?_, ?_⟩
  · show ((b + (if get_status_flag s .CARRY then 1 else 0) +
        s.registers.accumulator) &&& 0xFF) = _
    rw [hsum, and_255_eq_mod]
  · rw [get_status_flag_set_accumulator, get_status_flag_set_zero_and_negative_flags]
    simp only [reduceCtorEq, if_false]
    rw [get_set_status_flag]
    simp only [reduceCtorEq, if_false]
    rw [get_set_status_flag, if_pos rfl, hsum, and_one_shiftLeft_bne_zero]
  · rw [get_status_flag_set_accumulator, get_status_flag_set_zero_and_negative_flags]
    simp only [reduceCtorEq, if_false]
    rw [get_set_status_flag, if_pos rfl]
    rw [Nat.mod_eq_of_lt ha, hsum, and_255_eq_mod]
    simp only [is_negative]
    cases hb7 : b.testBit 7 <;>
      cases ha7 : s.registers.accumulator.testBit 7 <;>
        cases hs7 : ((s.registers.accumulator + b +
            (if get_status_flag s .CARRY then 1 else 0)) % 256).testBit 7 <;>
          rfl
  · rw [get_status_flag_set_accumulator, get_status_flag_set_zero_and_negative_flags]
    simp only [reduceCtorEq, if_false]
    rw [if_pos trivial, hsum, and_255_eq_mod]
  · rw [get_status_flag_set_accumulator, get_status_flag_set_zero_and_negative_flags,
      if_pos rfl, hsum, and_255_eq_mod, and_one_shiftLeft_bne_zero]

theorem get_zero_of_szn (s : ComputerState) (v : Nat) :
    get_status_flag (set_zero_and_negative_flags s v) .ZERO = (v == 0) := by
  rw [get_status_flag_set_zero_and_negative_flags, if_neg (by simp), if_pos rfl]

theorem get_negative_of_szn (s : ComputerState) (v : Nat) :
    get_status_flag (set_zero_and_negative_flags s v) .NEGATIVE = v.testBit 7 := by
  rw [get_status_flag_set_zero_and_negative_flags, if_pos rfl, and_one_shiftLeft_bne_zero]

theorem get_other_of_szn (s : ComputerState) (v : Nat) (g : StatusFlag)
    (h1 : g ≠ .NEGATIVE) (h2 : g ≠ .ZERO) :
    get_status_flag (set_zero_and_negative_flags s v) g = get_status_flag s g := by
  rw [get_status_flag_set_zero_and_negative_flags, if_neg h1, if_neg h2]

theorem and_one_bne_zero (x : Nat) : ((x &&& 1) != 0) = x.testBit 0 := by
  have h : (1 : Nat) = 1 <<< 0 := rfl
  rw [h]
  rw [and_one_shiftLeft_bne_zero]

/-- Claim C1 (code_bug): the spec requires the store operations (STA,
STX, STY with an Address operand) to write the source register to
memory without touching flags, and the transfer operations (TAX, TAY,
TSX, TXA, TXS, TYA with an Implied operand) to copy registers and
(except TXS) update Zero/Negative — never returning an Unimplemented
error.  The code has no handler for any of them: execute_operation
falls through to Err("Unimplemented operation") for all nine, leaving
the state untouched, and a step that decodes such an instruction
(opcode 0x85 = STA ZeroPage) fails. -/
theorem store_transfer_ops_unimplemented :
    execute_operation (initialize_from_image [0, 0]) .STA (.Address 0) =
      .err "Unimplemented operation" (initialize_from_image [0, 0]) ∧
    execute_operation (initialize_from_image [0, 0]) .STX (.Address 0) =
      .err "Unimplemented operation" (initialize_from_image [0, 0]) ∧
    execute_operation (initialize_from_image [0, 0]) .STY (.Address 0) =
      .err "Unimplemented operation" (initialize_from_image [0, 0]) ∧
    execute_operation (initialize_from_image [0, 0]) .TAX .Implied =
      .err "Unimplemented operation" (initialize_from_image [0, 0]) ∧
    execute_operation (initialize_from_image [0, 0]) .TAY .Implied =
      .err "Unimplemented operation" (initialize_from_image [0, 0]) ∧
    execute_operation (initialize_from_image [0, 0]) .TSX .Implied =
      .err "Unimplemented operation" (initialize_from_image [0, 0]) ∧
    execute_operation (initialize_from_image [0, 0]) .TXA .Implied =
      .err "Unimplemented operation" (initialize_from_image [0, 0]) ∧
    execute_operation (initialize_from_image [0, 0]) .TXS .Implied =
      .err "Unimplemented operation" (initialize_from_image [0, 0]) ∧
    execute_operation (initialize_from_image [0, 0]) .TYA .Implied =
      .err "Unimplemented operation" (initialize_from_image [0, 0]) ∧
    step (initialize_from_image [0x85, 0x00, 0x00]) = .err "Unimplemented operation" :=
  ⟨rfl, rfl, rfl, rfl, rfl, rfl, rfl, rfl, rfl, rfl⟩

/-- Claim C2 (code_bug): for a taken two-byte branch the spec demands
target = address immediately after the branch instruction plus the
signed displacement.  Stepping BVC (+0x10) at address 0 with the
overflow flag clear lands the program counter at 0x10 = 0 + 0x10, the
branch instruction address plus the displacement, not at
0x12 = (0 + 2) + 0x10 as the claim requires: execute_branch_if
subtracts the 2 bytes consumed during the fetch, cancelling the
"address after the instruction" base. -/
theorem branch_taken_lands_at_instruction_plus_displacement :
    step (initialize_from_image [0x50, 0x10]) =
      .ok ⟨[0x50, 0x10], {program_counter := 0x10}⟩ ∧
    (0x10 : Nat) ≠ (0 + 2) + 0x10 :=
  ⟨rfl, by decide⟩

/-- Claim C3 (code_bug): the spec says an IndirectY operand is the
little-endian zero-page pointer plus the Y register, with X playing no
role.  The code adds `self.registers.x` instead: on memory
[0x02, 0xFF, 0x34, 0x12] with X = 5 and Y = 9 the pointer 0x1234
stored at zero-page address 0x02 resolves to 0x1239 = 0x1234 + X,
instead of 0x123D = 0x1234 + Y. -/
theorem indirect_y_operand_indexes_by_x :
    get_indirect_y_operand ⟨[0x02, 0xFF, 0x34, 0x12], {x := 5, y := 9}⟩ =
      some (.Address 0x1239,
        ⟨[0x02, 0xFF, 0x34, 0x12], {x := 5, y := 9, program_counter := 1}⟩) ∧
    (0x1239 : Nat) = 0x1234 + 5 ∧ (0x1239 : Nat) ≠ 0x1234 + 9 :=
  ⟨rfl, rfl, by decide⟩

/-- Claim C4 (code_bug): the spec requires memory built by
initialize_from_image to be zero-filled up to 64 KB so that every read
below 65536 is total and returns 0 past the image.  The code stores
the image as the whole memory, so reading past its length indexes the
Vec out of range (a panic, modelled as none): the empty image panics
at address 0, a one-byte image panics at address 1. -/
theorem initialize_from_image_reads_can_panic :
    get_byte_from_memory (initialize_from_image []) 0 = none ∧
    get_byte_from_memory (initialize_from_image [0xEA]) 1 = none ∧
    (initialize_from_image [0xEA]).memory.length = 1 :=
  ⟨rfl, rfl, rfl⟩

/-- Claim C6 (confirmed): step takes the machine by value and its
error case carries only the message, so an erroring step yields no
machine state at all: no ok state can coexist with the error, the
pre-step state is exactly what a zero-length run returns, and every
longer run from that state surfaces the same error without producing
any intermediate state. -/
theorem step_error_applies_none (s : ComputerState) (e : String)
    (h : step s = .err e) :
    (∀ t : ComputerState, step s ≠ .ok t) ∧
    multiple_steps s 0 = .ok s ∧
    ∀ m, 0 < m → multiple_steps s m = .err e := by
  refine ⟨?_, rfl, ?_⟩
  · intro t h'
    rw [h] at h'
    exact StepResult.noConfusion h'
  · intro m hm
    cases m with
    | zero => exact absurd hm (by omega)
    | succ k =>
      have hgoal : multiple_steps s (k + 1) =
          (match step s with
           | .ok s1 => multiple_steps s1 k
           | .err e1 => .err e1
           | .panic => .panic) := rfl
      rw [hgoal, h]

theorem step_error_applies_none_witness :
    step (initialize_from_image [0x80]) = .err "Can\x27t find instruction" ∧
    ((∀ t : ComputerState, step (initialize_from_image [0x80]) ≠ .ok t) ∧
      multiple_steps (initialize_from_image [0x80]) 0 = .ok (initialize_from_image [0x80]) ∧
      ∀ m, 0 < m → multiple_steps (initialize_from_image [0x80]) m =
        .err "Can\x27t find instruction") :=
  ⟨rfl, step_error_applies_none (initialize_from_image [0x80]) "Can\x27t find instruction" rfl⟩

/-- Claim C8 (confirmed): resolving a zero-page operand masks the base
byte plus index to 8 bits, so for every base byte readable at the
program counter and every index value the resolver succeeds and the
resulting Address is below 256; ZeroPage, ZeroPageX and ZeroPageY all
route through this computation with offsets 0, X and Y. -/
theorem zero_page_operand_stays_in_zero_page (s : ComputerState) (offset base : Nat)
    (h : get_byte_from_memory s s.registers.program_counter = some base) :
    get_zero_page_operand s offset =
      some (.Address ((base + offset) &&& 0xff),
        set_program_counter s ((s.registers.program_counter + 1) % 65536)) ∧
    ((base + offset) &&& 0xff) < 256 ∧
    fetch_operand s .ZeroPage = get_zero_page_operand s 0 ∧
    fetch_operand s .ZeroPageX = get_zero_page_operand s s.registers.x ∧
    fetch_operand s .ZeroPageY = get_zero_page_operand s s.registers.y := by
  refine ⟨?_, ?_, rfl, rfl, rfl⟩
  · unfold get_zero_page_operand
    rw [h]
  · exact lt_of_le_of_lt Nat.and_le_right (by norm_num)

theorem zero_page_operand_witness :
    get_byte_from_memory (initialize_from_image [0xFF]) 0 = some 0xFF ∧
    ((0xFF + 7) &&& 0xff) < 256 ∧
    get_zero_page_operand (initialize_from_image [0xFF]) 7 =
      some (.Address ((0xFF + 7) &&& 0xff), set_program_counter (initialize_from_image [0xFF]) 1) :=
  ⟨rfl, (zero_page_operand_stays_in_zero_page (initialize_from_image [0xFF]) 7 0xFF rfl).2.1,
    (zero_page_operand_stays_in_zero_page (initialize_from_image [0xFF]) 7 0xFF rfl).1⟩

/-- Claim C10 (confirmed): executing a read-modify-write operation
(ASL, LSR, ROL, ROR, INC, DEC) on an Immediate operand fails with
Err("Cannot set immediate operand value") from set_operand_value, and
the failing call leaves the accumulator, X, Y, stack pointer, program
counter and memory unchanged — but the Zero and Negative flags (and,
for the shifts and rotates, Carry) have already been updated from the
computed result before the error returns. -/
theorem rmw_immediate_sets_flags_then_errors (s : ComputerState) (v : Nat) :
    (∃ t, execute_operation s .ASL (.Immediate v) =
        .err "Cannot set immediate operand value" t ∧
      frame_except_status s t ∧ zn_from t ((v <<< 1) % 256) ∧
      get_status_flag t .CARRY = v.testBit 7) ∧
    (∃ t, execute_operation s .LSR (.Immediate v) =
        .err "Cannot set immediate operand value" t ∧
      frame_except_status s t ∧ zn_from t (v >>> 1) ∧
      get_status_flag t .CARRY = v.testBit 0) ∧
    (∃ t, execute_operation s .ROL (.Immediate v) =
        .err "Cannot set immediate operand value" t ∧
      frame_except_status s t ∧
      zn_from t (((v <<< 1) % 256) ||| (if get_status_flag s .CARRY then 1 else 0)) ∧
      get_status_flag t .CARRY = v.testBit 7) ∧
    (∃ t, execute_operation s .ROR (.Immediate v) =
        .err "Cannot set immediate operand value" t ∧
      frame_except_status s t ∧
      zn_from t ((v >>> 1) ||| ((if get_status_flag s .CARRY then 1 else 0) <<< 7)) ∧
      get_status_flag t .CARRY = v.testBit 0) ∧
    (∃ t, execute_operation s .INC (.Immediate v) =
        .err "Cannot set immediate operand value" t ∧
      frame_except_status s t ∧ zn_from t (u8_wrapping_add v 1) ∧
      get_status_flag t .CARRY = get_status_flag s .CARRY) ∧
    (∃ t, execute_operation s .DEC (.Immediate v) =
        .err "Cannot set immediate operand value" t ∧
      frame_except_status s t ∧ zn_from t (u8_wrapping_sub v 1) ∧
      get_status_flag t .CARRY = get_status_flag s .CARRY) := by
  refine ⟨⟨_, rfl, ⟨rfl, rfl, rfl, rfl, rfl, rfl⟩, ⟨?_, ?_⟩, ?_⟩,
    ⟨_, rfl, ⟨rfl, rfl, rfl, rfl, rfl, rfl⟩, ⟨?_, ?_⟩, ?_⟩,
    ⟨_, rfl, ⟨rfl, rfl, rfl, rfl, rfl, rfl⟩, ⟨?_, ?_⟩, ?_⟩,
    ⟨_, rfl, ⟨rfl, rfl, rfl, rfl, rfl, rfl⟩, ⟨?_, ?_⟩, ?_⟩,
    ⟨_, rfl, ⟨rfl, rfl, rfl, rfl, rfl, rfl⟩, ⟨?_, ?_⟩, ?_⟩,
    ⟨_, rfl, ⟨rfl, rfl, rfl, rfl, rfl, rfl⟩, ⟨?_, ?_⟩, ?_⟩⟩
  -- ASL: state is szn (set CARRY high_bit s) result
  · exact get_zero_of_szn _ _
  · exact get_negative_of_szn _ _
  · rw [get_other_of_szn _ _ _ (by simp) (by simp), get_set_status_flag, if_pos rfl,
      and_one_shiftLeft_bne_zero]
  -- LSR
  · exact get_zero_of_szn _ _
  · exact get_negative_of_szn _ _
  · rw [get_other_of_szn _ _ _ (by simp) (by simp), get_set_status_flag, if_pos rfl,
      and_one_bne_zero]
  -- ROL: state is set CARRY high_bit (szn s result)
  · rw [get_set_status_flag, if_neg (by simp), get_zero_of_szn]
  · rw [get_set_status_flag, if_neg (by simp), get_negative_of_szn]
  · rw [get_set_status_flag, if_pos rfl, and_one_shiftLeft_bne_zero]
  -- ROR
  · rw [get_set_status_flag, if_neg (by simp), get_zero_of_szn]
  · rw [get_set_status_flag, if_neg (by simp), get_negative_of_szn]
  · rw [get_set_status_flag, if_pos rfl, and_one_bne_zero]
  -- INC: state is szn s result
  · exact get_zero_of_szn _ _
  · exact get_negative_of_szn _ _
  · exact get_other_of_szn _ _ _ (by simp) (by simp)
  -- DEC
  · exact get_zero_of_szn _ _
  · exact get_negative_of_szn _ _
  · exact get_other_of_szn _ _ _ (by simp) (by simp)

set_option maxRecDepth 4096 in
theorem table_decode_encode_check : (List.range 256).all (fun b =>
    match bytecode_to_instruction b with
    | .ok i =>
      match instruction_to_bytecode i with
      | .ok b2 => b2 == b
      | .error _ => false
    | .error _ => true) = true := by decide

set_option maxRecDepth 4096 in
theorem table_encode_decode_check : INSTRUCTION_TUPLES.all (fun p =>
    (match instruction_to_bytecode p.2 with
     | .ok b => b == p.1
     | .error _ => false) &&
    (match bytecode_to_instruction p.1 with
     | .ok i => i == p.2
     | .error _ => false)) = true := by decide

/-- Claim C7 (confirmed): the opcode table is a one-to-one
correspondence: every opcode byte that decodes successfully encodes
back to the same byte, and every (mode, operation) pair listed in the
table encodes to its table byte, which decodes back to the same
pair. -/
theorem opcode_table_roundtrip :
    (∀ b : Nat, b < 256 → ∀ i, bytecode_to_instruction b = .ok i →
      instruction_to_bytecode i = .ok b) ∧
    (∀ p ∈ INSTRUCTION_TUPLES,
      instruction_to_bytecode p.2 = .ok p.1 ∧ bytecode_to_instruction p.1 = .ok p.2) := by
  constructor
  · intro b hb i hdec
    have h1 := List.all_eq_true.mp table_decode_encode_check b (List.mem_range.mpr hb)
    rw [hdec] at h1
    have h1' : (match instruction_to_bytecode i with
        | Except.ok b2 => b2 == b
        | Except.error _ => false) = true := h1
    cases henc : instruction_to_bytecode i with
    | ok b2 =>
      rw [henc] at h1'
      have h1x : (b2 == b) = true := h1'
      rw [eq_of_beq h1x]
    | error e =>
      rw [henc] at h1'
      have h1x : false = true := h1'
      exact absurd h1x (by simp)
  · intro p hp
    have h2 := List.all_eq_true.mp table_encode_decode_check p hp
    have h2' : ((match instruction_to_bytecode p.2 with
        | Except.ok b => b == p.1
        | Except.error _ => false) &&
      (match bytecode_to_instruction p.1 with
        | Except.ok i => i == p.2
        | Except.error _ => false)) = true := h2
    rw [Bool.and_eq_true] at h2'
    obtain ⟨h2a, h2b⟩ := h2'
    constructor
    · cases henc : instruction_to_bytecode p.2 with
      | ok b =>
        rw [henc] at h2a
        have ha' : (b == p.1) = true := h2a
        rw [eq_of_beq ha']
      | error e =>
        rw [henc] at h2a
        have ha' : false = true := h2a
        exact absurd ha' (by simp)
    · cases hdec : bytecode_to_instruction p.1 with
      | ok i =>
        rw [hdec] at h2b
        have hb' : (i == p.2) = true := h2b
        rw [eq_of_beq hb']
      | error e =>
        rw [hdec] at h2b
        have hb' : false = true := h2b
        exact absurd hb' (by simp)

theorem opcode_table_roundtrip_witness :
    (0x69 : Nat) < 256 ∧
    (0x69, Instruction.mk .Immediate .ADC) ∈ INSTRUCTION_TUPLES ∧
    instruction_to_bytecode (Instruction.mk .Immediate .ADC) = .ok 0x69 ∧
    bytecode_to_instruction 0x69 = .ok (Instruction.mk .Immediate .ADC) := by
  refine ⟨by norm_num, List.mem_cons_self _ _, ?_, ?_⟩
  · exact opcode_table_roundtrip.1 0x69 (by norm_num) (Instruction.mk .Immediate .ADC) rfl
  · exact (opcode_table_roundtrip.2 (0x69, Instruction.mk .Immediate .ADC)
      (List.mem_cons_self _ _)).2

/-- Claim C9, counterexample: multiple_steps returns only the failure,
not the number of completed steps.  A run that fails on its first step
and a run that completes one step before failing return the very same
value, so no function of the result can recover how many steps
completed. -/
theorem multiple_steps_result_carries_no_count :
    multiple_steps (initialize_from_image [0x80]) 2 =
      multiple_steps (initialize_from_image [0xEA, 0x80]) 2 ∧
    multiple_steps (initialize_from_image [0x80]) 1 = .err "Can\x27t find instruction" ∧
    multiple_steps (initialize_from_image [0xEA, 0x80]) 1 =
      .ok ⟨[0xEA, 0x80], {program_counter := 1}⟩ ∧
    ¬ ∃ completed : StepResult → Nat,
        completed (multiple_steps (initialize_from_image [0x80]) 2) = 0 ∧
        completed (multiple_steps (initialize_from_image [0xEA, 0x80]) 2) = 1 := by
  refine ⟨rfl, rfl, rfl, ?_⟩
  rintro ⟨f, h0, h1⟩
  have heq : multiple_steps (initialize_from_image [0x80]) 2 =
      multiple_steps (initialize_from_image [0xEA, 0x80]) 2 := rfl
  rw [heq] at h0
  rw [h0] at h1
  exact absurd h1 (by decide)

/-- Claim C9 (corrected): multiple_steps executes step sequentially at
most n times and stops immediately at the first failing step,
returning that failure alone (the completed-step count is not part of
the result): whenever k completed steps reach a state whose next step
fails, every run bounded by more than k steps returns exactly that
error. -/
theorem multiple_steps_short_circuits (k : Nat) :
    ∀ (s t : ComputerState) (m : Nat) (e : String),
      multiple_steps s k = .ok t → step t = .err e → k < m →
      multiple_steps s m = .err e := by
  induction k with
  | zero =>
    intro s t m e hk he hm
    have hst : StepResult.ok s = StepResult.ok t := hk
    cases hst
    cases m with
    | zero => exact absurd hm (by omega)
    | succ m1 =>
      have hgoal : multiple_steps s (m1 + 1) =
          (match step s with
           | .ok s1 => multiple_steps s1 m1
           | .err e1 => .err e1
           | .panic => .panic) := rfl
      rw [hgoal, he]
  | succ k1 ih =>
    intro s t m e hk he hm
    have hk' : (match step s with
        | .ok s1 => multiple_steps s1 k1
        | .err e1 => .err e1
        | .panic => .panic) = .ok t := hk
    cases hstep : step s with
    | ok s1 =>
      rw [hstep] at hk'
      cases m with
      | zero => exact absurd hm (by omega)
      | succ m1 =>
        have hgoal : multiple_steps s (m1 + 1) =
            (match step s with
             | .ok s2 => multiple_steps s2 m1
             | .err e1 => .err e1
             | .panic => .panic) := rfl
        rw [hgoal, hstep]
        exact ih s1 t m1 e hk' he (by omega)
    | err e1 =>
      rw [hstep] at hk'
      exact StepResult.noConfusion hk'
    | panic =>
      rw [hstep] at hk'
      exact StepResult.noConfusion hk'

theorem multiple_steps_short_circuits_witness :
    multiple_steps (initialize_from_image [0xEA, 0x80]) 1 =
      .ok ⟨[0xEA, 0x80], {program_counter := 1}⟩ ∧
    step (⟨[0xEA, 0x80], {program_counter := 1}⟩ : ComputerState) =
      .err "Can\x27t find instruction" ∧
    1 < 2 ∧
    multiple_steps (initialize_from_image [0xEA, 0x80]) 2 = .err "Can\x27t find instruction" :=
  ⟨rfl, rfl, by omega,
    multiple_steps_short_circuits 1 (initialize_from_image [0xEA, 0x80])
      ⟨[0xEA, 0x80], {program_counter := 1}⟩ 2 "Can\x27t find instruction" rfl rfl (by omega)⟩

theorem adc_semantics_witness :
    get_operand_value (⟨[0], {accumulator := 100}⟩ : ComputerState) (.Immediate 30) =
      .ok 30 ∧ (30 : Nat) < 256 ∧ (100 : Nat) < 256 ∧
    ∃ t, execute_operation (⟨[0], {accumulator := 100}⟩ : ComputerState)
        Operation.ADC (.Immediate 30) = .ok t ∧
      t.registers.accumulator =
        ((100 : Nat) + 30 + (if get_status_flag (⟨[0], {accumulator := 100}⟩ :
          ComputerState) .CARRY then 1 else 0)) % 256 ∧
      get_status_flag t .CARRY =
        ((100 : Nat) + 30 + (if get_status_flag (⟨[0], {accumulator := 100}⟩ :
          ComputerState) .CARRY then 1 else 0)).testBit 8 ∧
      get_status_flag t .OVERFLOW =
        (((30 : Nat).testBit 7 == (100 : Nat).testBit 7) &&
          !((((100 : Nat) + 30 + (if get_status_flag (⟨[0], {accumulator := 100}⟩ :
            ComputerState) .CARRY then 1 else 0)) % 256).testBit 7 == (30 : Nat).testBit 7)) ∧
      get_status_flag t .ZERO =
        ((((100 : Nat) + 30 + (if get_status_flag (⟨[0], {accumulator := 100}⟩ :
          ComputerState) .CARRY then 1 else 0)) % 256) == 0) ∧
      get_status_flag t .NEGATIVE =
        (((100 : Nat) + 30 + (if get_status_flag (⟨[0], {accumulator := 100}⟩ :
          ComputerState) .CARRY then 1 else 0)) % 256).testBit 7 :=
  ⟨rfl, by omega, by omega,
    adc_semantics (⟨[0], {accumulator := 100}⟩ : ComputerState) (.Immediate 30) 30
      rfl (by omega) (by decide)⟩

end Nestegg
